import Mathlib

/-
Verification development for jacl::small_vector
(src/include/jacl/small_vector.hh).

The container is shallowly embedded as follows.

* An element value is a Nat.  A storage slot is an Option Nat: some v is a
  live (constructed) element holding v, none is uninitialized or destroyed
  raw storage.  This captures the element-wise (non-trivial value type)
  code paths of copy_data / move_data / move_data_backwards / destroy_n;
  the trivially-copyable memcpy/memmove paths agree on every live slot.
* The state of a small_vector is SV below:
    - heap models is_heap_allocated() (data_ != inline_data_, line 222);
    - buf is the block data_ points at; its length is the number of slots,
      i.e. capacity_ for a heap block and sizeN for the inline buffer
      (allocate returns exactly the requested count in the plain
      allocator_traits::allocate path, line 249, so the capacity_ field
      always equals the heap block length);
    - size models size_;
    - alloc models the identity of the embedded allocator instance, and
      blockAlloc records which allocator instance allocated the current
      heap block (meaningful only when heap = true);
* static_capacity (sizeN) and max_size() are parameters N and maxSize;
  in the source max_size() = 2^32 / sizeof(value_type), a constant of the
  instantiated type.  Arithmetic is on Nat; the expression
  size_ + (size_ >> 1) + 1 cannot wrap uint32_t for sizeof(value_type) >= 2
  because size_ <= max_size() <= 2^31, so no modular reduction is modelled.
* Fallible steps: allocate (max_size check at line 275 and allocator
  failure) and element constructors.  An operation returns
  Option Err x SV: (none, s) is normal completion in state s, (some e, s)
  means the exception e propagated out of the call leaving the container
  in state s.
-/

namespace SmallVec

/-- Error taxonomy of the container: length_error from check_max_size,
bad_alloc from the allocator, out_of_range from at, and a failure thrown
by an element constructor. -/
inductive Err where
  | lengthError : Err
  | badAlloc : Err
  | outOfRange : Err
  | ctorError : Err
deriving DecidableEq

/-- State of a small_vector instance, as described in the file header. -/
structure SV where
  heap : Bool
  buf : List (Option Nat)
  size : Nat
  alloc : Nat
  blockAlloc : Nat
deriving DecidableEq

/-- Source line 753: capacity() returns capacity_ (the heap block length)
when heap-allocated and static_capacity otherwise. -/
def SV.capacity (N : Nat) (sv : SV) : Nat :=
  if sv.heap then sv.buf.length else N

/-- Source lines 269-273, destroy_n(first, n): destroy the n slots starting
at index first. -/
def destroySlots : List (Option Nat) → Nat → Nat → List (Option Nat)
  | buf, _, 0 => buf
  | buf, first, m + 1 => destroySlots (buf.set first none) (first + 1) m

/-- Source lines 351-363, move_data(dest, src, n) with dest and src inside
the same block (used by erase, line 841): for i = 0..n-1 construct slot
dest+i from slot src+i, then destroy slot src+i.  Reading a slot outside
the block (the source reads past the end of storage there) yields none. -/
def moveSlots : List (Option Nat) → Nat → Nat → Nat → List (Option Nat)
  | buf, _, _, 0 => buf
  | buf, dp, sp, m + 1 =>
      moveSlots ((buf.set dp (buf.getD sp none)).set sp none) (dp + 1) (sp + 1) m

/-- Source lines 351-363, move_data(dest, src, n) with dest and src in two
different blocks: construct dest slots dp..dp+n-1 from src slots
sp..sp+n-1, destroying each source slot. -/
def moveAcross : List (Option Nat) → List (Option Nat) → Nat → Nat → Nat →
    List (Option Nat) × List (Option Nat)
  | dest, src, _, _, 0 => (dest, src)
  | dest, src, dp, sp, m + 1 =>
      moveAcross (dest.set dp (src.getD sp none)) (src.set sp none) (dp + 1) (sp + 1) m

/-- Source lines 365-380, move_data_backwards(dest, src, n) as called from
insert_impl (line 317): shift the m slots p..p+m-1 up by n positions,
processing the highest index first, destroying each source slot. -/
def shiftRightSlots : List (Option Nat) → Nat → Nat → Nat → List (Option Nat)
  | buf, _, 0, _ => buf
  | buf, p, m + 1, n =>
      let i := p + m
      shiftRightSlots ((buf.set (i + n) (buf.getD i none)).set i none) p m n

/-- Construct the elements of vs into consecutive slots starting at p
(the uninitialized_copy / construct_at loops of the source). -/
def writeSlots : List (Option Nat) → Nat → List Nat → List (Option Nat)
  | buf, _, [] => buf
  | buf, p, v :: vs => writeSlots (buf.set p (some v)) (p + 1) vs

/-- Source lines 915, std::swap_ranges(l_first, l_last, r_first): exchange
the first n slots of two blocks. -/
def swapRanges (a b : List (Option Nat)) (n : Nat) :
    List (Option Nat) × List (Option Nat) :=
  (b.take n ++ a.drop n, a.take n ++ b.drop n)

/-- Source lines 231-250 and 275-285: allocate(n) first runs
check_max_size(n), throwing length_error when n > max_size(); the
allocator itself may fail with bad_alloc (modelled by the oom flag); on
success the plain allocator_traits::allocate path grants exactly n slots. -/
def allocateWith (maxSize : Nat) (oom : Bool) (n : Nat) : Except Err Nat :=
  if n > maxSize then .error .lengthError
  else if oom then .error .badAlloc
  else .ok n

/-- Source lines 852-861, reserve(sz): if sz > capacity(), run
alloc_assign_internal(sz, cur_cap, cb) (lines 390-405): allocate the new
block, move the size_ live elements into it with move_data, commit the new
data_ and capacity_, and deallocate the old block.  A failing allocation
propagates before any state is touched. -/
def reserveF (N maxSize : Nat) (oom : Bool) (sv : SV) (sz : Nat) : Option Err × SV :=
  if sz > sv.capacity N then
    match allocateWith maxSize oom sz with
    | .error e => (some e, sv)
    | .ok newCap =>
        -- cb moves the live prefix into the fresh block; the remaining
        -- newCap - size_ slots of the new block are uninitialized.
        (none, { sv with
          heap := true
          buf := sv.buf.take sv.size ++ List.replicate (newCap - sv.size) none
          blockAlloc := sv.alloc })
  else (none, sv)

/-- Source lines 793-804, emplace_back(args): when size_ == capacity(),
reserve(min(size_ + (size_ >> 1) + 1, max_size())); then construct_at
(data_ + size_) and increment size_.  Note that the source performs no
bounds check on the final construct_at: when reserve was a no-op because
the growth target equals the current capacity, the write lands one past
the end of the block (modelled by List.set out of range, a no-op on the
slots) while size_ is still incremented. -/
def emplaceBackF (N maxSize : Nat) (oom : Bool) (sv : SV) (v : Nat) : Option Err × SV :=
  let curCap := sv.capacity N
  let step :=
    if sv.size = curCap then
      reserveF N maxSize oom sv (min (sv.size + sv.size / 2 + 1) maxSize)
    else (none, sv)
  match step with
  | (some e, s) => (some e, s)
  | (none, s) =>
      (none, { s with buf := s.buf.set s.size (some v), size := s.size + 1 })

/-- Source lines 793-804 with a failing element constructor: the growth
step (if any) succeeds, then the construct_at of the appended element at
data_ + size_ throws.  size_ is not incremented and the exception
propagates; the state reached by the growth step is kept. -/
def emplaceBackCtorThrowF (N maxSize : Nat) (sv : SV) : Option Err × SV :=
  let curCap := sv.capacity N
  let step :=
    if sv.size = curCap then
      reserveF N maxSize false sv (min (sv.size + sv.size / 2 + 1) maxSize)
    else (none, sv)
  match step with
  | (some e, s) => (some e, s)
  | (none, s) => (some Err.ctorError, s)

/-- Source lines 852-861 and 351-363, reserve(sz) for an element type
whose move constructor throws while relocating: allocation succeeded,
move_data moved and destroyed the source elements 0..k-1, the move
construction of element k threw; the defer_fail block (line 357) destroys
the k constructed destination elements and the defer block (line 396)
deallocates the new block.  data_, size_ and capacity_ were never
reassigned, so the container keeps its old block with its first k slots
destroyed. -/
def reserveMoveThrowF (N maxSize : Nat) (sv : SV) (sz k : Nat) : Option Err × SV :=
  if sz > sv.capacity N then
    match allocateWith maxSize false sz with
    | .error e => (some e, sv)
    | .ok _ => (some Err.ctorError, { sv with buf := destroySlots sv.buf 0 k })
  else (none, sv)

/-- Source lines 304-337 and 822-828, insert(position, first, last) for a
random-access range vs, with position = begin() + p: insert_impl with the
exact-fit growth callback (line 827).  In the in-capacity branch the tail
[position, end()) is shifted up by n with move_data_backwards and the new
elements are constructed at position; as in the source, size_ is not
updated in this branch.  Otherwise alloc_assign_internal allocates
new_cap = new_size, constructs the new elements at dest + p, moves the low
and high parts of the old block around them, and commits new_size. -/
def insertListF (N maxSize : Nat) (oom : Bool) (sv : SV) (p : Nat) (vs : List Nat) :
    Option Err × SV :=
  let n := vs.length
  if n = 0 then (none, sv)
  else
    let newSize := sv.size + n
    let curCap := sv.capacity N
    if newSize ≤ curCap then
      let buf1 := shiftRightSlots sv.buf p (sv.size - p) n
      let buf2 := writeSlots buf1 p vs
      (none, { sv with buf := buf2 })
    else
      match allocateWith maxSize oom newSize with
      | .error e => (some e, sv)
      | .ok newCap =>
          let dest := (sv.buf.take p ++ vs.map some)
              ++ ((sv.buf.drop p).take (sv.size - p))
              ++ List.replicate (newCap - newSize) none
          (none, { sv with heap := true, buf := dest, blockAlloc := sv.alloc, size := newSize })

/-- Source lines 304-337 and 822-828, insert(position, first, last) as
above, but the copy construction of the j-th new element throws.  In the
in-capacity branch, move_data_backwards has already shifted the tail
[position, end()) up by n (destroying the source slots) before
construct_cb runs; std::uninitialized_copy had constructed the new
elements 0..j-1 at position, destroys them when the j-th construction
throws, and the exception propagates (size_ was not modified in this
branch).  In the reallocating branch, construct_cb runs on the fresh
block before any old element is moved, so uninitialized_copy unwinds its
constructions, the defer block (line 396) releases the new block, and
the container is untouched. -/
def insertListCtorThrowF (N maxSize : Nat) (sv : SV) (p : Nat) (vs : List Nat)
    (j : Nat) : Option Err × SV :=
  let n := vs.length
  if n = 0 then (none, sv)
  else
    let newSize := sv.size + n
    let curCap := sv.capacity N
    if newSize ≤ curCap then
      let buf1 := shiftRightSlots sv.buf p (sv.size - p) n
      let buf2 := writeSlots buf1 p (vs.take j)
      let buf3 := destroySlots buf2 p j
      (some Err.ctorError, { sv with buf := buf3 })
    else
      match allocateWith maxSize false newSize with
      | .error e => (some e, sv)
      | .ok _ => (some Err.ctorError, sv)

/-- Source lines 836-845, erase(first, last) with first = begin() + a and
last = begin() + b: when a = b return immediately; otherwise destroy the
sz = b - a slots starting at a, then move_data(first, last, sz) moves the
sz slots starting at b down to a, and size_ decreases by sz.  (The source
moves only sz slots, not the whole tail [last, end()).) -/
def eraseRange (sv : SV) (a b : Nat) : SV :=
  if a = b then sv
  else
    let sz := b - a
    let buf1 := destroySlots sv.buf a sz
    let buf2 := moveSlots buf1 a b sz
    { sv with buf := buf2, size := sv.size - sz }

/-- Source lines 863-878, shrink_to_fit(): if size_ < static_capacity and
capacity() > static_capacity, move the elements into the inline buffer,
deallocate the heap block and point data_ at the inline buffer; otherwise
if size_ != capacity(), alloc_assign_internal(size_, ...) relocates to a
fresh block of exactly size_ slots (this branch also runs for an inline
container whose size is below static_capacity is false -- see the guard:
it runs whenever the first condition fails and size_ != capacity(),
including for inline containers). -/
def shrinkToFit (N maxSize : Nat) (sv : SV) : Option Err × SV :=
  let curCap := sv.capacity N
  if sv.size < N ∧ curCap > N then
    let q := moveAcross (List.replicate N none) sv.buf 0 0 sv.size
    (none, { sv with heap := false, buf := q.1 })
  else if sv.size ≠ curCap then
    match allocateWith maxSize false sv.size with
    | .error e => (some e, sv)
    | .ok newCap =>
        (none, { sv with
          heap := true
          buf := sv.buf.take sv.size ++ List.replicate (newCap - sv.size) none
          blockAlloc := sv.alloc })
  else (none, sv)

/-- Source lines 906-919, swap_inline_x_inline(l, r), called with
l.size_ <= r.size_: swap_ranges exchanges the first l.size_ slots, then
move_data moves the r slots l.size_..r.size_-1 into l (destroying the
sources), and the two size_ fields are swapped. -/
def swapInlineInline (l r : SV) : SV × SV :=
  let p := swapRanges l.buf r.buf l.size
  let q := moveAcross p.1 p.2 l.size l.size (r.size - l.size)
  ({ l with buf := q.1, size := r.size }, { r with buf := q.2, size := l.size })

/-- Source lines 921-934, swap_heap_x_inline(l, r) with l heap-allocated
and r inline.  The lambda captures this and other; otherSize is the value
of other.size_ at the point of the assignment l.size_ = other.size_
(line 929) -- note the source reads the captured other, not the parameter
r.  l receives the r elements moved into its inline buffer (a fresh view
of the union, previously holding capacity_), and r takes over the l heap
block, size and capacity. -/
def swapHeapInline (N : Nat) (l r : SV) (otherSize : Nat) : SV × SV :=
  let lBuf := l.buf
  let lSize := l.size
  let lBlockAlloc := l.blockAlloc
  let q := moveAcross (List.replicate N none) r.buf 0 0 r.size
  ({ l with heap := false, buf := q.1, size := otherSize },
   { r with heap := true, buf := lBuf, size := lSize, blockAlloc := lBlockAlloc })

/-- Source lines 900-964, x.swap(y): dispatch on the two modes.  Both
inline: swap_inline_x_inline with the smaller-sized argument first (no
allocator exchange in this case, as in the source).  Heap/inline and
inline/heap: swap_heap_x_inline (the captured other is y, so the
otherSize argument is y.size_ at entry in both cases), then the allocator
exchange when propagate_on_container_swap (pocs) holds.  Both heap: the
data_, size_ and capacity_ members are swapped directly. -/
def swapSV (N : Nat) (pocs : Bool) (x y : SV) : SV × SV :=
  let swapAlloc := fun (p : SV × SV) =>
    if pocs then
      ({ p.1 with alloc := p.2.alloc }, { p.2 with alloc := p.1.alloc })
    else p
  match x.heap, y.heap with
  | false, false =>
      if x.size ≤ y.size then swapInlineInline x y
      else
        let p := swapInlineInline y x
        (p.2, p.1)
  | true, false => swapAlloc (swapHeapInline N x y y.size)
  | false, true =>
      let p := swapHeapInline N y x y.size
      swapAlloc (p.2, p.1)
  | true, true =>
      swapAlloc
        ({ x with buf := y.buf, size := y.size, blockAlloc := y.blockAlloc },
         { y with buf := x.buf, size := x.size, blockAlloc := x.blockAlloc })

/-- Source lines 417-434, x.move_internal(std::move(y)): clear() destroys
the live elements of x; if y is heap-allocated, x deallocates its own
block and takes over the y block, capacity and (implicitly) the identity
of the allocator that produced it, and y.data_ is pointed back at its
inline buffer (whose slots are uninitialized, the union previously held
capacity_); otherwise the y elements are moved element-wise into the
existing x block.  Finally x.size_ = std::exchange(y.size_, 0).  Returns
(new x, new y). -/
def moveInternal (N : Nat) (x y : SV) : SV × SV :=
  let x0 : SV := { x with buf := destroySlots x.buf 0 x.size, size := 0 }
  if y.heap then
    ({ x0 with heap := true, buf := y.buf, blockAlloc := y.blockAlloc, size := y.size },
     { y with heap := false, buf := List.replicate N none, size := 0 })
  else
    let q := moveAcross x0.buf y.buf 0 0 y.size
    ({ x0 with buf := q.1, size := y.size },
     { y with buf := q.2, size := 0 })

/-- Source lines 673-693, x = std::move(y): when
propagate_on_container_move_assignment (pocma) holds and the allocators
differ, x is cleared, its block deallocated, data_ reset to the inline
buffer and the y allocator moved in; then move_internal(std::move(y)).
Returns (new x, new y). -/
def moveAssignF (N : Nat) (pocma : Bool) (x y : SV) : SV × SV :=
  let x1 : SV :=
    if pocma ∧ x.alloc ≠ y.alloc then
      { x with heap := false, buf := List.replicate N none, size := 0, alloc := y.alloc }
    else x
  moveInternal N x1 y

/-- Source lines 578-582, small_vector(small_vector&& y): the allocator is
move-constructed from y (same identity), the new object starts in the
default empty inline state, then move_internal(std::move(y)).  Returns
(the new vector, new y). -/
def moveConstructF (N : Nat) (y : SV) : SV × SV :=
  moveInternal N { heap := false, buf := List.replicate N none, size := 0,
                   alloc := y.alloc, blockAlloc := 0 } y

/-- Source line 757, the non-const operator[]: returns data_[n], no bounds
check.  The value read from slot n (none when the slot is not a live
element or is out of range). -/
def opIndex (sv : SV) (n : Nat) : Option Nat :=
  sv.buf.getD n none

/-- Source lines 758-761, the const operator[]: the body computes
const_cast applied to the non-const operator[](n) but contains no return
statement, so the call delivers no value to the caller (falling off the
end of a value-returning function).  Modelled as producing no value. -/
def opIndexConst (_sv : SV) (_n : Nat) : Option Nat :=
  none

/-- Source lines 762-775, at(n): throws out_of_range when n >= size_,
otherwise returns data_[n]; the const overload forwards to it (and does
return the value). -/
def atChecked (sv : SV) (n : Nat) : Except Err (Option Nat) :=
  if n ≥ sv.size then .error .outOfRange
  else .ok (sv.buf.getD n none)

/-- Concrete state: empty inline vector, sizeN = 4. -/
def svEmptyInline4 : SV := ⟨false, List.replicate 4 none, 0, 0, 0⟩

/-- Concrete state: inline vector holding the single element 1, sizeN = 4. -/
def svInline1 : SV := ⟨false, [some 1, none, none, none], 1, 0, 0⟩

/-- Concrete state: heap vector holding 10, 20, 30, 40, 50 in a block of
5 slots. -/
def svHeap5 : SV := ⟨true, [some 10, some 20, some 30, some 40, some 50], 5, 0, 0⟩

/-- Concrete state: inline vector holding 10, 20, 30, sizeN = 4. -/
def svInline102030 : SV := ⟨false, [some 10, some 20, some 30, none], 3, 0, 0⟩

/-- Concrete state: full inline vector holding 1, 2, 3, 4, sizeN = 4. -/
def sv4full : SV := ⟨false, [some 1, some 2, some 3, some 4], 4, 0, 0⟩

/-- Concrete state: full inline vector holding 1, 2, sizeN = 2. -/
def sv2full : SV := ⟨false, [some 1, some 2], 2, 0, 0⟩

/-- Concrete state: full heap vector of 6 elements in a block of 6 slots
(size = capacity = 6, the max_size of the instantiation used in the
append-at-max-size scenario). -/
def svMax6 : SV := ⟨true, [some 1, some 2, some 3, some 4, some 5, some 6], 6, 0, 0⟩

/-- Concrete state: inline vector holding 1, 2 with sizeN = 4 (capacity 4,
size 2, already minimal for the shrink-to-fit scenario). -/
def svShrinkInline2 : SV := ⟨false, [some 1, some 2, none, none], 2, 0, 0⟩

/-- Concrete state: heap vector of 4 elements in a block of 6 slots,
sizeN = 4 (size equals static_capacity). -/
def svShrinkHeap4 : SV := ⟨true, [some 1, some 2, some 3, some 4, none, none], 4, 0, 0⟩

/-- Concrete state: heap vector of 3 elements in a block of 6 slots,
sizeN = 4 (size below static_capacity). -/
def svShrinkHeap3 : SV := ⟨true, [some 1, some 2, some 3, none, none, none], 3, 0, 0⟩

/-- Concrete state: empty inline vector whose allocator has identity 1. -/
def svMoveDst : SV := ⟨false, List.replicate 4 none, 0, 1, 0⟩

/-- Concrete state: heap vector of 5 elements whose allocator has identity 2
and whose block was allocated by allocator 2. -/
def svMoveSrc : SV := ⟨true, [some 5, some 6, some 7, some 8, some 9], 5, 2, 2⟩

/-- Concrete state: inline vector holding the single element 42, sizeN = 4. -/
def svOne42 : SV := ⟨false, [some 42, none, none, none], 1, 0, 0⟩

/-- Concrete state: inline vector holding 1, 2, 3 with sizeN = 8 (spare
capacity, so an insert of two elements takes the in-capacity branch). -/
def svIns3 : SV :=
  ⟨false, [some 1, some 2, some 3, none, none, none, none, none], 3, 0, 0⟩

/- Helper lemmas about the slot primitives. -/

/-- destroySlots never changes the number of slots of a block. -/
theorem destroySlots_length (n : Nat) (l : List (Option Nat)) (first : Nat) :
    (destroySlots l first n).length = l.length := by
  induction n generalizing l first with
  | zero => rfl
  | succ m ih => simpa [destroySlots] using ih (l.set first none) (first + 1)

/-- shiftRightSlots never changes the number of slots of a block. -/
theorem shiftRightSlots_length (m : Nat) (l : List (Option Nat)) (p n : Nat) :
    (shiftRightSlots l p m n).length = l.length := by
  induction m generalizing l with
  | zero => rfl
  | succ i ih =>
    simp only [shiftRightSlots]
    rw [ih, List.length_set, List.length_set]

/-- writeSlots never changes the number of slots of a block. -/
theorem writeSlots_length (vs : List Nat) (l : List (Option Nat)) (p : Nat) :
    (writeSlots l p vs).length = l.length := by
  induction vs generalizing l p with
  | nil => rfl
  | cons v tl ih => simpa [writeSlots] using ih (l.set p (some v)) (p + 1)

/-- Setting slot i and keeping the first i + 1 slots splits into the old
prefix and the new value. -/
theorem take_set_self (l : List (Option Nat)) (i : Nat) (v : Option Nat)
    (h : i < l.length) :
    (l.set i v).take (i + 1) = l.take i ++ [v] := by
  induction l generalizing i with
  | nil => simp at h
  | cons a tl ih =>
    cases i with
    | zero => rfl
    | succ j =>
      have hj : j < tl.length := by simpa using h
      simpa [List.set, List.take] using ih j hj

/-- Evaluation of reserve on the growth path with a working allocator:
the allocation is granted and the live prefix is moved into the fresh
block. -/
theorem reserveF_ok (N maxSize sz : Nat) (sv : SV)
    (hle : sz ≤ maxSize) (hgt : sv.capacity N < sz) :
    reserveF N maxSize false sv sz =
      (none, { sv with
        heap := true
        buf := sv.buf.take sv.size ++ List.replicate (sz - sv.size) none
        blockAlloc := sv.alloc }) := by
  simp [reserveF, allocateWith, hgt, Nat.not_lt.mpr hle]

/-- Evaluation of reserve when the request does not exceed the current
capacity: a no-op. -/
theorem reserveF_noop (N maxSize sz : Nat) (oom : Bool) (sv : SV)
    (hle : ¬ sv.capacity N < sz) :
    reserveF N maxSize oom sv sz = (none, sv) := by
  simp [reserveF, hle]

/-- A failing reserve leaves the state untouched: all mutation happens
after the allocate call succeeds. -/
theorem reserveF_err (N maxSize sz : Nat) (oom : Bool) (sv : SV)
    (h : (reserveF N maxSize oom sv sz).1.isSome) :
    (reserveF N maxSize oom sv sz).2 = sv := by
  unfold reserveF at *
  split at h
  · rcases hA : allocateWith maxSize oom sz with e | n <;> simp_all
  · simp_all

/-- C1.  The claimed invariant (for every reachable state 0 <= size <=
capacity, with capacity = static_capacity in inline mode, preserved by
every public operation) fails: swapping an empty inline vector (sizeN =
4, a reachable state) with a heap vector of 5 elements (also reachable)
takes the invariant-violating branch of swap.  Both inputs satisfy the
invariant, yet after the swap the second vector is in inline mode
(capacity static_capacity = 4) while its size field still reads 5,
because swap_heap_x_inline assigns l.size_ = other.size_ (the captured
other, i.e. l itself in the inline/heap case) instead of r.size_. -/
theorem swap_breaks_size_le_capacity :
    svEmptyInline4.size ≤ svEmptyInline4.capacity 4 ∧
    svHeap5.size ≤ svHeap5.capacity 4 ∧
    (swapSV 4 false svEmptyInline4 svHeap5).2.heap = false ∧
    (swapSV 4 false svEmptyInline4 svHeap5).2.capacity 4 = 4 ∧
    (swapSV 4 false svEmptyInline4 svHeap5).2.size = 5 ∧
    ¬ (swapSV 4 false svEmptyInline4 svHeap5).2.size ≤
        (swapSV 4 false svEmptyInline4 svHeap5).2.capacity 4 := by
  decide

/-- C3.  Swap does not leave each container with the other's original
size in the inline/heap combination: swapping an inline vector of size 1
with a heap vector of size 5, the first container correctly receives the
5 heap elements, but the second container ends with size 5 instead of
the required 1 (swap_heap_x_inline reads the captured other.size_, which
aliases the container being assigned, in this direction).  The
heap/inline direction, by contrast, is correct. -/
theorem swap_inline_heap_wrong_size :
    (swapSV 4 false svInline1 svHeap5).1.size = 5 ∧
    (swapSV 4 false svInline1 svHeap5).1.buf =
      [some 10, some 20, some 30, some 40, some 50] ∧
    svInline1.size = 1 ∧
    (swapSV 4 false svInline1 svHeap5).2.size = 5 ∧
    (swapSV 4 false svInline1 svHeap5).2.size ≠ svInline1.size ∧
    (swapSV 4 false svHeap5 svInline1).1.size = 1 ∧
    (swapSV 4 false svHeap5 svInline1).2.size = 5 := by
  decide

/-- C4.  Erase moves only last - first tail elements instead of the whole
tail [last, end()): erasing the first element of the inline vector
10, 20, 30 leaves size 2 but the live range reads 20 followed by a
destroyed slot, not 20, 30 as the claim requires.  The concrete scenario
of the claim (erasing positions 1 and 2 of a 5-element vector) happens to
have a tail of exactly last - first elements and therefore does produce
10, 40, 50 with size 3 and unchanged capacity. -/
theorem erase_moves_only_erased_count :
    (eraseRange svInline102030 0 1).size = 2 ∧
    (eraseRange svInline102030 0 1).buf.take 2 = [some 20, none] ∧
    (eraseRange svInline102030 0 1).buf.take 2 ≠ [some 20, some 30] ∧
    (eraseRange svHeap5 1 3).size = 3 ∧
    (eraseRange svHeap5 1 3).buf.take 3 = [some 10, some 40, some 50] ∧
    (eraseRange svHeap5 1 3).capacity 4 = svHeap5.capacity 4 := by
  decide

/-- C6.  An append when size already equals max_size() does not report a
capacity-exceeded failure and does not leave the container unchanged:
with max_size = 6 and a full heap vector of 6 elements, emplace_back
computes a growth target of min(6 + 3 + 1, 6) = 6, reserve(6) is a no-op,
and the element is constructed one slot past the end of the block while
size_ is incremented to 7 (exceeding the capacity 6) with no error. -/
theorem append_at_max_size_silently_overflows :
    (emplaceBackF 4 6 false svMax6 9).1 = none ∧
    (emplaceBackF 4 6 false svMax6 9).2.size = 7 ∧
    (emplaceBackF 4 6 false svMax6 9).2.capacity 4 = 6 ∧
    ¬ (emplaceBackF 4 6 false svMax6 9).2.size ≤
        (emplaceBackF 4 6 false svMax6 9).2.capacity 4 := by
  decide

/-- C7.  shrink_to_fit is not a no-op on an already-minimal container and
does not demote to inline whenever size <= static_capacity: on an inline
vector of size 2 (sizeN = 4) it heap-allocates a block of exactly 2 slots
(first branch requires capacity() > static_capacity, so the inline
container falls into the reallocating branch), and on a heap vector with
size exactly static_capacity = 4 it reallocates to a heap block of 4
slots instead of demoting to inline (the demotion branch requires
size < static_capacity strictly).  Only size < static_capacity with a
heap block demotes, as the third conjunct group shows. -/
theorem shrink_to_fit_allocates_for_inline :
    (shrinkToFit 4 100 svShrinkInline2).1 = none ∧
    (shrinkToFit 4 100 svShrinkInline2).2.heap = true ∧
    (shrinkToFit 4 100 svShrinkInline2).2.capacity 4 = 2 ∧
    (shrinkToFit 4 100 svShrinkHeap4).2.heap = true ∧
    (shrinkToFit 4 100 svShrinkHeap4).2.capacity 4 = 4 ∧
    (shrinkToFit 4 100 svShrinkHeap3).2.heap = false ∧
    (shrinkToFit 4 100 svShrinkHeap3).2.buf.take 3 =
      [some 1, some 2, some 3] := by
  decide

/-- C8.  A heap block is transferred between containers whose allocators
compare unequal even with propagation disabled: move-assigning from a
heap-mode source whose allocator has identity 2 into a container whose
allocator has identity 1, with propagate_on_container_move_assignment
false, move_internal unconditionally takes over the source block (the
destination ends heap-allocated, holding the block allocated by allocator
2, while its own allocator is still 1). -/
theorem move_assign_transfers_block_unequal_alloc :
    svMoveDst.alloc ≠ svMoveSrc.alloc ∧
    (moveAssignF 4 false svMoveDst svMoveSrc).1.heap = true ∧
    (moveAssignF 4 false svMoveDst svMoveSrc).1.buf = svMoveSrc.buf ∧
    (moveAssignF 4 false svMoveDst svMoveSrc).1.blockAlloc = 2 ∧
    (moveAssignF 4 false svMoveDst svMoveSrc).1.alloc = 1 := by
  decide

/-- C9.  After moving from a container (move construction or move
assignment, either propagation setting, either mode of the source), the
source has size 0 and is in inline mode, so its capacity reads
static_capacity: move_internal always ends with
size_ = std::exchange(other.size_, 0) and points other.data_ back at the
inline buffer. -/
theorem move_leaves_source_empty_inline (N : Nat) (pocma : Bool) (x y : SV) :
    (moveAssignF N pocma x y).2.size = 0 ∧
    (moveAssignF N pocma x y).2.heap = false ∧
    (moveAssignF N pocma x y).2.capacity N = N ∧
    (moveConstructF N y).2.size = 0 ∧
    (moveConstructF N y).2.heap = false ∧
    (moveConstructF N y).2.capacity N = N := by
  unfold moveAssignF moveConstructF moveInternal
  cases hy : y.heap <;> simp [hy, SV.capacity]

/-- C10.  The const overload of the subscript operator does not return
the element: its body evaluates the casts and the non-const
operator[](n) but contains no return statement, so the call produces no
value, disagreeing with the non-const overload and with at(n), which on
the vector holding 42 both yield 42 at index 0. -/
theorem const_index_returns_no_value :
    opIndexConst svOne42 0 = none ∧
    opIndex svOne42 0 = some 42 ∧
    atChecked svOne42 0 = .ok (some 42) ∧
    opIndexConst svOne42 0 ≠ opIndex svOne42 0 := by
  exact ⟨rfl, rfl, rfl, by decide⟩

/-- C5.  Single-element append growth policy.  For any container state
with size <= block length, block length = static_capacity in inline mode
and capacity <= max_size: the append never fails with the working
allocator; when size = capacity the post capacity is exactly
min(max(capacity + capacity / 2 + 1, size + 1), max_size); when
size < capacity no reallocation occurs (the state changes only by the
construct at slot size and the increment of size_); and whenever
size < max_size the append preserves all existing elements and places the
new value after them. -/
theorem emplace_back_growth (N maxSize v : Nat) (sv : SV)
    (h1 : sv.size ≤ sv.buf.length)
    (h2 : sv.heap = false → sv.buf.length = N)
    (h3 : sv.capacity N ≤ maxSize) :
    (emplaceBackF N maxSize false sv v).1 = none ∧
    (sv.size = sv.capacity N →
      (emplaceBackF N maxSize false sv v).2.capacity N =
        min (max (sv.capacity N + sv.capacity N / 2 + 1) (sv.size + 1)) maxSize) ∧
    (sv.size ≠ sv.capacity N →
      (emplaceBackF N maxSize false sv v).2 =
        { sv with buf := sv.buf.set sv.size (some v), size := sv.size + 1 }) ∧
    (sv.size < maxSize →
      (emplaceBackF N maxSize false sv v).2.size = sv.size + 1 ∧
      (emplaceBackF N maxSize false sv v).2.buf.take (sv.size + 1) =
        sv.buf.take sv.size ++ [some v]) := by
  have hlen : sv.capacity N = sv.buf.length := by
    unfold SV.capacity
    cases hh : sv.heap with
    | true => simp
    | false => simp [h2 hh]
  by_cases heq : sv.size = sv.capacity N
  · -- the append finds size = capacity
    by_cases hgt : sv.capacity N < min (sv.size + sv.size / 2 + 1) maxSize
    · -- growth path: reserve allocates the target capacity
      have hres := reserveF_ok N maxSize (min (sv.size + sv.size / 2 + 1) maxSize) sv
        (min_le_right _ _) hgt
      have hkey : emplaceBackF N maxSize false sv v =
          (none, { sv with
            heap := true
            buf := (sv.buf.take sv.size ++
              List.replicate (min (sv.size + sv.size / 2 + 1) maxSize - sv.size) none).set
                sv.size (some v)
            size := sv.size + 1
            blockAlloc := sv.alloc }) := by
        simp only [emplaceBackF, if_pos heq, hres]
      have htk : (sv.buf.take sv.size).length = sv.size := by
        simp [List.length_take, Nat.min_eq_left h1]
      have hlt : sv.size < min (sv.size + sv.size / 2 + 1) maxSize := by omega
      have hblen : ((sv.buf.take sv.size ++
          List.replicate (min (sv.size + sv.size / 2 + 1) maxSize - sv.size) none).set
            sv.size (some v)).length = min (sv.size + sv.size / 2 + 1) maxSize := by
        rw [List.length_set, List.length_append, htk, List.length_replicate]
        omega
      refine ⟨by rw [hkey], fun _ => ?_, fun hne => absurd heq hne, fun _ => ?_⟩
      · rw [hkey, ← heq]
        simp only [SV.capacity, if_true]
        rw [hblen]
        omega
      · refine ⟨by rw [hkey], ?_⟩
        rw [hkey]
        show ((sv.buf.take sv.size ++
          List.replicate (min (sv.size + sv.size / 2 + 1) maxSize - sv.size) none).set
            sv.size (some v)).take (sv.size + 1) = _
        rw [take_set_self _ _ _
          (by rw [List.length_append, htk, List.length_replicate]; omega)]
        rw [List.take_append_of_le_length (by omega), List.take_take, Nat.min_self]
    · -- capacity is already max_size: the growth target equals the
      -- current capacity and reserve is a no-op
      have hmax : sv.capacity N = maxSize := by omega
      have hres := reserveF_noop N maxSize (min (sv.size + sv.size / 2 + 1) maxSize)
        false sv hgt
      have hkey : emplaceBackF N maxSize false sv v =
          (none, { sv with buf := sv.buf.set sv.size (some v), size := sv.size + 1 }) := by
        simp only [emplaceBackF, if_pos heq, hres]
      refine ⟨by rw [hkey], fun _ => ?_, fun hne => absurd heq hne, fun hlt => ?_⟩
      · rw [hkey]
        have hcap : SV.capacity N
            { sv with buf := sv.buf.set sv.size (some v), size := sv.size + 1 } =
            sv.capacity N := by
          unfold SV.capacity
          cases sv.heap <;> simp [List.length_set]
        rw [hcap]
        omega
      · omega
  · -- size < capacity: no growth step runs
    have hkey : emplaceBackF N maxSize false sv v =
        (none, { sv with buf := sv.buf.set sv.size (some v), size := sv.size + 1 }) := by
      simp only [emplaceBackF, if_neg heq]
    have hlt : sv.size < sv.buf.length := by omega
    refine ⟨by rw [hkey], fun he => absurd he heq, fun _ => by rw [hkey], fun _ => ?_⟩
    refine ⟨by rw [hkey], ?_⟩
    rw [hkey]
    show (sv.buf.set sv.size (some v)).take (sv.size + 1) = _
    rw [take_set_self _ _ _ hlt]

/-- C5 witness: the concrete scenario of the claim.  A full inline vector
holding 1, 2, 3, 4 with static_capacity 4 grows on the fifth push to
capacity min(max(4 + 4 / 2 + 1, 5), max_size) = 7 and holds 1, 2, 3, 4, 5
in order, obtained by instantiating the growth theorem. -/
theorem emplace_back_growth_wit :
    (emplaceBackF 4 100 false sv4full 5).2.capacity 4 = 7 ∧
    (emplaceBackF 4 100 false sv4full 5).2.size = 5 ∧
    (emplaceBackF 4 100 false sv4full 5).2.buf.take 5 =
      [some 1, some 2, some 3, some 4, some 5] := by
  have h := emplace_back_growth 4 100 5 sv4full (by decide) (by decide) (by decide)
  refine ⟨?_, (h.2.2.2 (by decide)).1, ?_⟩
  · have h2 := h.2.1 (by decide)
    rw [h2]
    decide
  · have h4 := (h.2.2.2 (by decide)).2
    exact h4.trans (by decide)

/-- C2 counterexample.  The claim (after any single failing push_back,
emplace_back, insert or reserve, whether an allocation failure or an
element-constructor failure, size, capacity and all existing elements are
unchanged) is false on the code at three concrete inputs.  First: a full
inline vector of 1, 2, 3, 4 (sizeN = 4); emplace_back first commits the
growth step and only then constructs the appended element, so when that
constructor throws the capacity has already changed from 4 to 7.
Second: the full inline vector 1, 2 (sizeN = 2); reserve(5) with an
element type whose move constructor throws on the second element
destroys source element 0 before failing, so an existing element is
lost.  Third: the inline vector 1, 2, 3 (sizeN = 8); insert of two
elements at position 1 in the in-capacity branch first shifts the tail
2, 3 up by two (destroying the sources) and only then constructs the new
elements, so when the second construction throws the live range
[0, size) reads 1 followed by two destroyed slots instead of 1, 2, 3. -/
theorem failure_atomicity_cex :
    (emplaceBackCtorThrowF 4 100 sv4full).1 = some Err.ctorError ∧
    sv4full.capacity 4 = 4 ∧
    (emplaceBackCtorThrowF 4 100 sv4full).2.capacity 4 = 7 ∧
    (emplaceBackCtorThrowF 4 100 sv4full).2.capacity 4 ≠ sv4full.capacity 4 ∧
    (reserveMoveThrowF 2 100 sv2full 5 1).1 = some Err.ctorError ∧
    sv2full.buf = [some 1, some 2] ∧
    (reserveMoveThrowF 2 100 sv2full 5 1).2.buf = [none, some 2] ∧
    (insertListCtorThrowF 8 100 svIns3 1 [7, 8] 1).1 = some Err.ctorError ∧
    svIns3.buf.take 3 = [some 1, some 2, some 3] ∧
    (insertListCtorThrowF 8 100 svIns3 1 [7, 8] 1).2.size = 3 ∧
    (insertListCtorThrowF 8 100 svIns3 1 [7, 8] 1).2.buf.take 3 =
      [some 1, none, none] ∧
    (insertListCtorThrowF 8 100 svIns3 1 [7, 8] 1).2.buf.take 3 ≠
      svIns3.buf.take 3 := by
  decide

/-- C2 (amended).  Failure atomicity as the code provides it: a failing
allocation (allocator failure or max_size check) inside reserve,
push_back/emplace_back or insert propagates before any state is touched,
leaving size, capacity and all elements unchanged; an element-constructor
failure of the newly appended element in push_back/emplace_back leaves
size and all existing elements unchanged (though the capacity may already
have grown); an element move-constructor failure while relocating to a
new block during reserve leaves size and capacity unchanged (the
destination is unwound and the new block released), though already-moved
source elements have been destroyed; and an element-constructor failure
during insert leaves size and capacity unchanged, but in the
in-capacity branch the tail has already been shifted upward when the
constructors run, so existing elements may be disturbed, while in the
reallocating branch (new elements constructed before any old element is
moved) the container is left fully unchanged. -/
theorem failure_atomicity_amended (N maxSize sz p j k v : Nat) (oom : Bool)
    (vs : List Nat) (sv : SV) (h1 : sv.size ≤ sv.buf.length) :
    ((reserveF N maxSize oom sv sz).1.isSome →
      (reserveF N maxSize oom sv sz).2 = sv) ∧
    ((emplaceBackF N maxSize oom sv v).1.isSome →
      (emplaceBackF N maxSize oom sv v).2 = sv) ∧
    ((insertListF N maxSize oom sv p vs).1.isSome →
      (insertListF N maxSize oom sv p vs).2 = sv) ∧
    ((emplaceBackCtorThrowF N maxSize sv).2.size = sv.size ∧
     (emplaceBackCtorThrowF N maxSize sv).2.buf.take sv.size =
       sv.buf.take sv.size) ∧
    ((reserveMoveThrowF N maxSize sv sz k).2.size = sv.size ∧
     (reserveMoveThrowF N maxSize sv sz k).2.capacity N = sv.capacity N) ∧
    ((insertListCtorThrowF N maxSize sv p vs j).2.size = sv.size ∧
     (insertListCtorThrowF N maxSize sv p vs j).2.capacity N =
       sv.capacity N) ∧
    (¬ sv.size + vs.length ≤ sv.capacity N →
      (insertListCtorThrowF N maxSize sv p vs j).2 = sv) := by
  refine ⟨reserveF_err N maxSize sz oom sv, ?_, ?_, ?_, ?_, ?_, ?_⟩
  · -- emplace_back can fail only inside its reserve step
    by_cases heq : sv.size = sv.capacity N
    · simp only [emplaceBackF, if_pos heq]
      rcases hR : reserveF N maxSize oom sv (min (sv.size + sv.size / 2 + 1) maxSize)
        with ⟨e?, s⟩
      rcases e? with _ | e
      · intro h
        simp at h
      · intro _
        have h2 := reserveF_err N maxSize (min (sv.size + sv.size / 2 + 1) maxSize) oom sv
          (by rw [hR]; rfl)
        rw [hR] at h2
        simpa using h2
    · simp only [emplaceBackF, if_neg heq]
      intro h
      simp at h
  · -- a failing insert fails in the allocate call of its reallocating
    -- branch, before any state is touched
    unfold insertListF
    by_cases hn : vs.length = 0
    · rw [if_pos hn]
      intro h
      simp at h
    · rw [if_neg hn]
      by_cases hfits : sv.size + vs.length ≤ sv.capacity N
      · rw [if_pos hfits]
        intro h
        simp at h
      · rw [if_neg hfits]
        rcases hA : allocateWith maxSize oom (sv.size + vs.length) with e | n
        · intro _
          simp [hA]
        · intro h
          simp [hA] at h
  · -- a failing append constructor: the state is the one left by the
    -- (successful or skipped) growth step
    by_cases heq : sv.size = sv.capacity N
    · simp only [emplaceBackCtorThrowF, if_pos heq]
      by_cases hgt : sv.capacity N < min (sv.size + sv.size / 2 + 1) maxSize
      · rw [reserveF_ok N maxSize _ sv (min_le_right _ _) hgt]
        refine ⟨rfl, ?_⟩
        have htk : (sv.buf.take sv.size).length = sv.size := by
          simp [List.length_take, Nat.min_eq_left h1]
        show (sv.buf.take sv.size ++ _).take sv.size = _
        rw [List.take_append_of_le_length (by omega), List.take_take, Nat.min_self]
      · rw [reserveF_noop N maxSize _ false sv hgt]
        exact ⟨rfl, rfl⟩
    · simp only [emplaceBackCtorThrowF, if_neg heq]
      simp
  · -- a failing element move during the relocation of reserve: size and
    -- capacity are untouched (only source slots were destroyed)
    unfold reserveMoveThrowF
    by_cases hgt : sv.capacity N < sz
    · rw [if_pos hgt]
      rcases hA : allocateWith maxSize false sz with e | n
      · exact ⟨rfl, rfl⟩
      · refine ⟨rfl, ?_⟩
        unfold SV.capacity
        cases sv.heap <;> simp [destroySlots_length]
    · rw [if_neg hgt]
      exact ⟨rfl, rfl⟩
  · -- a failing element constructor during insert: size_ is never
    -- assigned on the failure paths and the block (hence the capacity)
    -- is never replaced
    unfold insertListCtorThrowF
    by_cases hn : vs.length = 0
    · rw [if_pos hn]
      exact ⟨rfl, rfl⟩
    · rw [if_neg hn]
      by_cases hfits : sv.size + vs.length ≤ sv.capacity N
      · rw [if_pos hfits]
        refine ⟨rfl, ?_⟩
        unfold SV.capacity
        cases sv.heap <;>
          simp [destroySlots_length, writeSlots_length, shiftRightSlots_length]
      · rw [if_neg hfits]
        rcases hA : allocateWith maxSize false (sv.size + vs.length) with e | n <;>
          exact ⟨rfl, rfl⟩
  · -- in the reallocating branch of insert a constructor failure leaves
    -- the container fully unchanged: the new elements are constructed
    -- before any old element is moved, and the fresh block is released
    intro hfits
    unfold insertListCtorThrowF
    by_cases hn : vs.length = 0
    · rw [if_pos hn]
    · rw [if_neg hn, if_neg hfits]
      rcases hA : allocateWith maxSize false (sv.size + vs.length) with e | n <;> rfl

/-- C2 witness: instantiating the amended atomicity theorem on a full
inline vector of 1, 2, 3, 4 with a failing allocator shows a failing
reserve(10) leaves the state intact, a failing append constructor
preserves size and the existing elements, and a constructor failure in
the reallocating branch of insert (one element into the full vector)
leaves the container fully unchanged. -/
theorem failure_atomicity_amended_wit :
    (reserveF 4 100 true sv4full 10).2 = sv4full ∧
    (emplaceBackF 4 100 true sv4full 9).2 = sv4full ∧
    (emplaceBackCtorThrowF 4 100 sv4full).2.size = sv4full.size ∧
    (emplaceBackCtorThrowF 4 100 sv4full).2.buf.take sv4full.size =
      sv4full.buf.take sv4full.size ∧
    (insertListCtorThrowF 4 100 sv4full 1 [7] 0).2.size = sv4full.size ∧
    (insertListCtorThrowF 4 100 sv4full 1 [7] 0).2 = sv4full := by
  have h := failure_atomicity_amended 4 100 10 1 0 1 9 true [7] sv4full (by decide)
  exact ⟨h.1 (by decide), h.2.1 (by decide), h.2.2.2.1.1, h.2.2.2.1.2,
    h.2.2.2.2.2.1.1, h.2.2.2.2.2.2 (by decide)⟩

end SmallVec
